import Mathlib

/-!
Verification of the indicator/signal pipeline of the stock-market analyser
(`src/app.py`).  The pipeline is embedded shallowly:

* prices and volumes are rational numbers (`ℚ`); the decimal literals of the
  source (`0.01`, `0.1`) are the exact rationals `1/100` and `1/10`;
* the pandas frame is a `BarTable`: a row count plus the `Close` and `Volume`
  columns, each `Option`al because the pipeline tests for their presence;
* `NaN` cells of the rolling mean are `none`;
* the external collaborators (yfinance, `ta.rsi`, `ta.macd`, TextBlob) are
  parameters of the session function, as the spec treats them as black boxes;
* `st.stop()` after an empty download, and the uncaught `KeyError` raised by
  `data['Close']` when that column is absent, both abort the script run, so
  the session function returns `Except.error` there.

All definitions are executable and follow the source line by line.
-/

set_option autoImplicit false

namespace StockApp

/-- One step of the OBV accumulation loop (`src/app.py` lines 47-52):
given the previous close, the current close, the accumulator and the current
bar's volume, produce the next accumulator value. -/
def obvStep (prev c acc v : ℚ) : ℚ :=
  if prev < c then acc + v
  else if c < prev then acc - v
  else acc

/-- The OBV loop of `src/app.py` lines 46-52: walk the remaining closes and
volumes in lockstep, emitting one accumulator value per bar. -/
def obvAux : ℚ → ℚ → List ℚ → List ℚ → List ℚ
  | _, _, [], _ => []
  | _, _, _ :: _, [] => []
  | prev, acc, c :: cs, v :: vs =>
      obvStep prev c acc v :: obvAux c (obvStep prev c acc v) cs vs

/-- The OBV series of `src/app.py` lines 44-52: the Python list starts as
`[0]` and the loop runs over indices `1 .. len(close)-1`, reading
`volume[i]` (hence the tail of the volume column). -/
def obv (close volume : List ℚ) : List ℚ :=
  match close with
  | [] => [0]
  | c :: cs => 0 :: obvAux c 0 cs volume.tail

/-- `data['Close'].rolling(window=20).mean()` at row `i`
(`src/app.py` line 26): `NaN` (`none`) until 20 rows exist at or before `i`,
otherwise the mean of the 20 closes ending at `i`. -/
def SMA20 (close : List ℚ) (i : Nat) : Option ℚ :=
  if 19 ≤ i ∧ i < close.length then
    some (((close.drop (i - 19)).take 20).sum / 20)
  else none

/-- The investment-suggestion rule of `src/app.py` lines 71-83, on the latest
close and the latest SMA20 cell (`none` models a `NaN` cell, i.e.
`pd.notna` fails). -/
def suggestion (latest_close : ℚ) (latest_sma : Option ℚ) : String × String :=
  match latest_sma with
  | some sma =>
      let diff := latest_close - sma
      let threshold := sma * 0.01
      if diff > threshold then ("BUY 📈", "green")
      else if diff < -threshold then ("SELL 📉", "red")
      else ("HOLD 🤝", "gray")
  | none => ("Not enough data for suggestion", "orange")

/-- The sentiment bucketing of `src/app.py` lines 62-68, on the polarity
score returned by the external text-polarity function. -/
def sentimentLabel (polarity : ℚ) : String :=
  if polarity > 0.1 then "Positive 🙂"
  else if polarity < -0.1 then "Negative 🙁"
  else "Neutral 😐"

/-- The sentiment stage as run by the script: apply the external polarity
function to the ticker text, then bucket the score. -/
def runSentiment (pol : String → ℚ) (ticker : String) : ℚ × String :=
  (pol ticker, sentimentLabel (pol ticker))

/-- Which of the three suggestion panels the presentation block of
`src/app.py` lines 99-148 draws. -/
inductive Panel
  | buyPanel
  | sellPanel
  | holdPanel
deriving DecidableEq

/-- The panel dispatch of `src/app.py` lines 99-148: the BUY string gets the
BUY panel, the SELL string the SELL panel, and every other suggestion string
falls into the `else` branch that draws the HOLD panel. -/
def renderPanel (sug : String) : Panel :=
  if sug = "BUY 📈" then Panel.buyPanel
  else if sug = "SELL 📉" then Panel.sellPanel
  else Panel.holdPanel

/-- The downloaded frame: a row count and the two columns the pipeline tests
for.  A column is `none` when absent from the frame. -/
structure BarTable where
  nrows : Nat
  close : Option (List ℚ)
  volume : Option (List ℚ)

/-- `data.empty` (`src/app.py` line 21). -/
def BarTable.isEmpty (t : BarTable) : Bool :=
  t.nrows == 0

/-- Everything a completed script run hands to the presentation layer. -/
structure Report where
  sma20fn : Nat → Option ℚ
  rsi : List (Option ℚ)
  macd_available : Bool
  obvCol : Option (List ℚ)
  warnings : List String
  sentiment_label : String
  sug : String × String

/-- The script run of `src/app.py` lines 20-83.  `rsiFn` and `macdFn` stand
for `ta.rsi` and `ta.macd` (`macdFn _ = none` models a `None`/empty MACD
frame), `pol` for TextBlob's polarity.  An empty download stops the session
(line 23); an absent `Close` column makes line 26 raise an uncaught
`KeyError`, also aborting the run.  With `Close` present, the OBV guard of
line 40 reduces to the presence of `Volume`; inside a pandas frame the
column has the row count's length, so the `try` body cannot fail and the
`except` arm is unreachable. -/
def runSession (rsiFn : List ℚ → List (Option ℚ))
    (macdFn : List ℚ → Option (List ℚ × List ℚ × List ℚ))
    (pol : String → ℚ) (ticker : String) (data : BarTable) :
    Except String Report :=
  if data.isEmpty then
    Except.error "No data found. Please check the ticker symbol."
  else
    match data.close with
    | none => Except.error "KeyError: Close"
    | some cl =>
        let macd_available := (macdFn cl).isSome
        let obvCol : Option (List ℚ) :=
          match data.volume with
          | some vl => some (obv cl vl)
          | none => none
        let warnings : List String :=
          match data.volume with
          | some _ => []
          | none => ["Required columns for OBV calculation missing."]
        Except.ok {
          sma20fn := SMA20 cl,
          rsi := rsiFn cl,
          macd_available := macd_available,
          obvCol := obvCol,
          warnings := warnings,
          sentiment_label := sentimentLabel (pol ticker),
          sug := suggestion (cl.getD (cl.length - 1) 0)
                   (SMA20 cl (cl.length - 1)) }

/-! ### Helper lemmas about the OBV loop -/

/-- The loop emits one value per remaining close (the volume column is at
least as long in any real frame). -/
theorem obvAux_length (cs : List ℚ) :
    ∀ (vs : List ℚ) (prev acc : ℚ), cs.length ≤ vs.length →
      (obvAux prev acc cs vs).length = cs.length := by
  induction cs with
  | nil => intro vs prev acc _; rfl
  | cons c cs ih =>
      intro vs prev acc h
      cases vs with
      | nil => simp at h
      | cons v vs =>
          simp only [obvAux, List.length_cons, Nat.succ_eq_add_one]
          rw [ih vs c (obvStep prev c acc v) (by simpa using h)]

/-- Each later cell of the loop output is the step function applied to the
two adjacent closes, the previous cell and the current volume. -/
theorem obvAux_getD_succ (cs : List ℚ) :
    ∀ (vs : List ℚ) (prev acc : ℚ) (i : Nat),
      i + 1 < cs.length → cs.length ≤ vs.length →
      (obvAux prev acc cs vs).getD (i + 1) 0 =
        obvStep (cs.getD i 0) (cs.getD (i + 1) 0)
          ((obvAux prev acc cs vs).getD i 0) (vs.getD (i + 1) 0) := by
  induction cs with
  | nil => intro vs prev acc i h _; simp at h
  | cons c cs ih =>
      intro vs prev acc i h hlen
      cases vs with
      | nil => simp at hlen
      | cons v vs =>
          cases i with
          | zero =>
              cases cs with
              | nil => simp at h
              | cons c2 cs2 =>
                  cases vs with
                  | nil => simp at hlen
                  | cons v2 vs2 => rfl
          | succ j =>
              have h' : j + 1 < cs.length := by
                simp only [List.length_cons] at h; omega
              have hlen' : cs.length ≤ vs.length := by
                simp only [List.length_cons] at hlen; omega
              simp only [obvAux, List.getD_cons_succ]
              exact ih vs c (obvStep prev c acc v) j h' hlen'

/-- A trailing window of a list, as a map over the window offsets. -/
theorem take_drop_map_range (l : List ℚ) :
    ∀ (n s : Nat), s + n ≤ l.length →
      (l.drop s).take n = (List.range n).map (fun k => l.getD (s + k) 0) := by
  intro n
  induction n with
  | zero => intro s _; simp
  | succ n ih =>
      intro s h
      have hs : s < l.length := by omega
      rw [List.drop_eq_getElem_cons hs, List.take_succ_cons, ih (s + 1) (by omega),
        List.range_succ_eq_map, List.map_cons, List.map_map]
      congr 1
      · exact (List.getD_eq_getElem l 0 hs).symm
      · apply List.map_congr_left
        intro k _
        simp only [Function.comp_apply]
        congr 1
        omega

/-! ### Claim theorems -/

/-- Claim C1: for every bar sequence of length at least 1 with `Close` and
`Volume` present (columns of one frame, hence of equal length), the OBV
series has exactly one value per bar, `OBV[0] = 0`, each later value obeys
the up/down/flat accumulation rule against the previous close using the
current bar's volume, and a length-1 sequence yields `OBV = [0]`. -/
theorem obv_pipeline_correct (cl vl : List ℚ)
    (hlen : cl.length = vl.length) (hpos : 1 ≤ cl.length) :
    (obv cl vl).length = cl.length
    ∧ (obv cl vl).getD 0 0 = 0
    ∧ (∀ i : Nat, i + 1 < cl.length →
        (obv cl vl).getD (i + 1) 0 =
          if cl.getD i 0 < cl.getD (i + 1) 0 then
            (obv cl vl).getD i 0 + vl.getD (i + 1) 0
          else if cl.getD (i + 1) 0 < cl.getD i 0 then
            (obv cl vl).getD i 0 - vl.getD (i + 1) 0
          else (obv cl vl).getD i 0)
    ∧ (cl.length = 1 → obv cl vl = [0]) := by
  cases cl with
  | nil => simp at hpos
  | cons c cs =>
      cases vl with
      | nil => simp at hlen
      | cons v vs =>
          have hcv : cs.length ≤ vs.length := by
            simp only [List.length_cons] at hlen; omega
          refine ⟨?_, rfl, ?_, ?_⟩
          · simp only [obv, List.tail_cons, List.length_cons]
            rw [obvAux_length cs vs c 0 hcv]
          · intro i h
            simp only [List.length_cons] at h
            simp only [obv, List.tail_cons]
            cases i with
            | zero =>
                cases cs with
                | nil => simp at h
                | cons c2 cs2 =>
                    cases vs with
                    | nil => simp at hcv
                    | cons v2 vs2 =>
                        simp only [List.getD_cons_succ, List.getD_cons_zero,
                          obvAux, obvStep]
            | succ j =>
                have h' : j + 1 < cs.length := by omega
                simp only [List.getD_cons_succ]
                rw [obvAux_getD_succ cs vs c 0 j h' hcv, obvStep]
          · intro h1
            cases cs with
            | nil => rfl
            | cons c2 cs2 => simp at h1

/-- Witness for C1 at a concrete four-bar sequence. -/
theorem obv_pipeline_correct_witness :
    (obv [(1 : ℚ), 3, 2, 2] [(10 : ℚ), 20, 30, 40]).getD 0 0 = 0 :=
  (obv_pipeline_correct [(1 : ℚ), 3, 2, 2] [(10 : ℚ), 20, 30, 40] rfl
    (by decide)).2.1

/-- Claim C3: at every index of the bar sequence, `SMA20` is defined exactly
when at least 20 bars exist at or before it (index at least 19); when
defined it is the arithmetic mean of the trailing 20 closes; and a sequence
shorter than 20 bars has `SMA20` undefined everywhere. -/
theorem sma20_defined_iff (cl : List ℚ) (i : Nat) (hi : i < cl.length) :
    ((SMA20 cl i).isSome ↔ 19 ≤ i)
    ∧ (19 ≤ i → SMA20 cl i =
        some ((((List.range 20).map (fun k => cl.getD (i - 19 + k) 0)).sum) / 20))
    ∧ (cl.length < 20 → ∀ j : Nat, SMA20 cl j = none) := by
  refine ⟨?_, ?_, ?_⟩
  · rw [SMA20]
    split_ifs with h
    · simpa using h.1
    · simp only [Option.isSome_none, Bool.false_eq_true, false_iff]
      intro h19
      exact h ⟨h19, hi⟩
  · intro h19
    rw [SMA20, if_pos ⟨h19, hi⟩,
      take_drop_map_range cl 20 (i - 19) (by omega)]
  · intro hlen j
    rw [SMA20, if_neg]
    rintro ⟨h19, hj⟩
    omega

/-- Witness for C3 at a concrete 20-bar sequence and index 19. -/
theorem sma20_defined_iff_witness :
    (SMA20 (List.replicate 20 (7 : ℚ)) 19).isSome ↔ 19 ≤ 19 :=
  (sma20_defined_iff (List.replicate 20 (7 : ℚ)) 19 (by decide)).1

/-- Claim C8: twenty identical closes of value `C` give `SMA20 = C` at
index 19. -/
theorem sma20_constant_closes (C : ℚ) :
    SMA20 (List.replicate 20 C) 19 = some C := by
  rw [SMA20, if_pos (by simp)]
  norm_num [List.take_replicate, List.sum_replicate, nsmul_eq_mul]

/-- Claim C2: with the latest SMA20 defined, the rule compares
`diff = close - SMA20` against `threshold = 0.01 * SMA20` and returns BUY,
SELL or HOLD accordingly; in particular the three sample inputs of the spec
give BUY, HOLD and SELL. -/
theorem suggestion_threshold_rule (c s : ℚ) :
    (suggestion c (some s) = ("BUY 📈", "green") ↔ 0.01 * s < c - s)
    ∧ (suggestion c (some s) = ("SELL 📉", "red") ↔
        ¬ 0.01 * s < c - s ∧ c - s < -(0.01 * s))
    ∧ (suggestion c (some s) = ("HOLD 🤝", "gray") ↔
        ¬ 0.01 * s < c - s ∧ ¬ c - s < -(0.01 * s))
    ∧ suggestion 110 (some 100) = ("BUY 📈", "green")
    ∧ suggestion 100.5 (some 100) = ("HOLD 🤝", "gray")
    ∧ suggestion 90 (some 100) = ("SELL 📉", "red") := by
  have hc : s * 0.01 = 0.01 * s := mul_comm s 0.01
  refine ⟨?_, ?_, ?_, by norm_num [suggestion], by norm_num [suggestion],
    by norm_num [suggestion]⟩ <;>
    simp only [suggestion, gt_iff_lt, hc] <;>
    split_ifs with h1 h2 <;>
    simp_all

/-- Claim C4: an undefined latest SMA20 (a `NaN` cell) always yields the
insufficient-data suggestion, and a defined one never does — the rule then
returns one of BUY, SELL, HOLD. -/
theorem suggestion_insufficient_data (c : ℚ) :
    suggestion c none = ("Not enough data for suggestion", "orange")
    ∧ ∀ s : ℚ,
        suggestion c (some s) ≠ ("Not enough data for suggestion", "orange")
        ∧ (suggestion c (some s) = ("BUY 📈", "green")
           ∨ suggestion c (some s) = ("SELL 📉", "red")
           ∨ suggestion c (some s) = ("HOLD 🤝", "gray")) := by
  refine ⟨rfl, fun s => ?_⟩
  simp only [suggestion]
  split_ifs <;> exact ⟨by decide, by tauto⟩

/-- Claim C7: the sentiment label is a function of the polarity score of the
ticker text alone: POSITIVE exactly when the score exceeds 0.1, NEGATIVE
exactly when it is below -0.1, NEUTRAL otherwise — including the boundary
scores 0.1 and -0.1. -/
theorem sentiment_bucket_rule (p : ℚ) :
    (sentimentLabel p = "Positive 🙂" ↔ 0.1 < p)
    ∧ (sentimentLabel p = "Negative 🙁" ↔ p < -0.1)
    ∧ (sentimentLabel p = "Neutral 😐" ↔ -0.1 ≤ p ∧ p ≤ 0.1)
    ∧ sentimentLabel 0.1 = "Neutral 😐"
    ∧ sentimentLabel (-0.1) = "Neutral 😐" := by
  refine ⟨?_, ?_, ?_, by norm_num [sentimentLabel], by norm_num [sentimentLabel]⟩ <;>
    simp only [sentimentLabel, gt_iff_lt] <;>
    split_ifs with h1 h2 <;>
    (simp_all; all_goals linarith)

/-- Claim C9: the sentiment stage is deterministic — running it twice on the
same ticker string (with the same external polarity function) produces the
same polarity score and the same label. -/
theorem sentiment_deterministic (pol : String → ℚ) (t₁ t₂ : String)
    (h : t₁ = t₂) : runSentiment pol t₁ = runSentiment pol t₂ := by
  rw [h]

/-- Witness for C9 on the spec's sample ticker. -/
theorem sentiment_deterministic_witness :
    runSentiment (fun _ => 0) "AAPL" = runSentiment (fun _ => 0) "AAPL" :=
  sentiment_deterministic (fun _ => 0) "AAPL" "AAPL" rfl

/-- Claim C5: an empty data-source response stops the session with the
user-visible error message before any indicator, signal or sentiment work:
the run produces an error, never a report. -/
theorem empty_download_stops_session
    (rsiFn : List ℚ → List (Option ℚ))
    (macdFn : List ℚ → Option (List ℚ × List ℚ × List ℚ))
    (pol : String → ℚ) (ticker : String) (t : BarTable)
    (h : t.isEmpty = true) :
    runSession rsiFn macdFn pol ticker t =
      Except.error "No data found. Please check the ticker symbol." := by
  rw [runSession, if_pos h]

/-- Witness for C5 on a concrete empty frame. -/
theorem empty_download_stops_session_witness :
    runSession (fun _ => []) (fun _ => none) (fun _ => 0) "ZZZZ"
      { nrows := 0, close := none, volume := none } =
      Except.error "No data found. Please check the ticker symbol." :=
  empty_download_stops_session (fun _ => []) (fun _ => none) (fun _ => 0)
    "ZZZZ" { nrows := 0, close := none, volume := none } rfl

/-- Counterexample to C6 as stated: in a non-empty frame whose `Close`
column is absent (here with `Volume` present), the run never reaches the
OBV guard — the `data['Close']` access of line 26 raises an uncaught
`KeyError` and the session aborts, so no report with the remaining
indicators and the signal exists. -/
theorem missing_close_aborts_session :
    ¬ ∃ r : Report,
        runSession (fun _ => []) (fun _ => none) (fun _ => 0) "AAPL"
          { nrows := 2, close := none, volume := some [1, 2] } =
          Except.ok r := by
  rintro ⟨r, hr⟩
  rw [show runSession (fun _ => []) (fun _ => none) (fun _ => 0) "AAPL"
        { nrows := 2, close := none, volume := some [1, 2] } =
        Except.error "KeyError: Close" from rfl] at hr
  exact Except.noConfusion hr

/-- Claim C6 (amended): in a non-empty frame with `Close` present but
`Volume` absent, the run completes with OBV unavailable and the
missing-columns warning, while SMA20, RSI, MACD availability, sentiment and
the signal are all still computed. -/
theorem missing_volume_skips_obv
    (rsiFn : List ℚ → List (Option ℚ))
    (macdFn : List ℚ → Option (List ℚ × List ℚ × List ℚ))
    (pol : String → ℚ) (ticker : String) (t : BarTable) (cl : List ℚ)
    (hc : t.close = some cl) (hv : t.volume = none) (hn : t.nrows ≠ 0) :
    runSession rsiFn macdFn pol ticker t =
      Except.ok
        { sma20fn := SMA20 cl,
          rsi := rsiFn cl,
          macd_available := (macdFn cl).isSome,
          obvCol := none,
          warnings := ["Required columns for OBV calculation missing."],
          sentiment_label := sentimentLabel (pol ticker),
          sug := suggestion (cl.getD (cl.length - 1) 0)
                   (SMA20 cl (cl.length - 1)) } := by
  have hne : ¬ t.isEmpty = true := by
    simp [BarTable.isEmpty, hn]
  rw [runSession, if_neg hne]
  rw [hc, hv]

/-- Witness for the amended C6 on a concrete two-bar frame without a
`Volume` column. -/
theorem missing_volume_skips_obv_witness :
    runSession (fun _ => []) (fun _ => none) (fun _ => 0) "AAPL"
      { nrows := 2, close := some [5, 6], volume := none } =
      Except.ok
        { sma20fn := SMA20 [5, 6],
          rsi := (fun _ : List ℚ => ([] : List (Option ℚ))) [5, 6],
          macd_available :=
            ((fun _ : List ℚ =>
                (none : Option (List ℚ × List ℚ × List ℚ))) [5, 6]).isSome,
          obvCol := none,
          warnings := ["Required columns for OBV calculation missing."],
          sentiment_label := sentimentLabel ((fun _ : String => (0 : ℚ)) "AAPL"),
          sug := suggestion (([5, 6] : List ℚ).getD (([5, 6] : List ℚ).length - 1) 0)
                   (SMA20 [5, 6] (([5, 6] : List ℚ).length - 1)) } :=
  missing_volume_skips_obv (fun _ => []) (fun _ => none) (fun _ => 0) "AAPL"
    { nrows := 2, close := some [5, 6], volume := none } [5, 6]
    rfl rfl (by decide)

/-- Claim C10: the presentation block draws the HOLD panel for every
suggestion string other than the BUY and SELL ones — in particular for the
insufficient-data suggestion — so a session with fewer than 20 bars
displays the HOLD panel. -/
theorem non_buy_sell_renders_hold :
    (∀ sug : String, sug ≠ "BUY 📈" → sug ≠ "SELL 📉" →
        renderPanel sug = Panel.holdPanel)
    ∧ (∀ c : ℚ, renderPanel (suggestion c none).1 = Panel.holdPanel)
    ∧ (∀ (rsiFn : List ℚ → List (Option ℚ))
         (macdFn : List ℚ → Option (List ℚ × List ℚ × List ℚ))
         (pol : String → ℚ) (ticker : String) (t : BarTable) (cl : List ℚ),
        t.close = some cl → cl.length = t.nrows → t.nrows ≠ 0 →
        t.nrows < 20 →
        (runSession rsiFn macdFn pol ticker t).toOption.map
            (fun r => renderPanel r.sug.1) = some Panel.holdPanel) := by
  refine ⟨?_, ?_, ?_⟩
  · intro sug h1 h2
    rw [renderPanel, if_neg h1, if_neg h2]
  · intro c
    rfl
  · intro rsiFn macdFn pol ticker t cl hc hlen hn h20
    have hne : ¬ t.isEmpty = true := by
      simp [BarTable.isEmpty, hn]
    have hsma : SMA20 cl (cl.length - 1) = none := by
      rw [SMA20, if_neg]
      rintro ⟨h19, _⟩
      omega
    rw [runSession, if_neg hne, hc]
    simp only [Except.toOption, Option.map_some]
    rw [hsma]
    rfl

/-- Witness for C10: the insufficient-data suggestion string is drawn with
the HOLD panel. -/
theorem non_buy_sell_renders_hold_witness :
    renderPanel "Not enough data for suggestion" = Panel.holdPanel :=
  non_buy_sell_renders_hold.1 "Not enough data for suggestion"
    (by decide) (by decide)

end StockApp
